import Mathlib

/-!
Verification of the Bill Printing App backend (order pricing & lifecycle engine).

The embedding models `src/main.py` and `src/schemas.py` over an explicit
document-store state.  Monetary values (Python floats) are modelled as
rationals; the MongoDB store is modelled as association lists from identity
strings to documents, with Mongo's first-match semantics for `find_one` and
`update_one`.  Fallible endpoints return `Except HErr`, where `HErr` models
`HTTPException` (status code and detail).
-/

namespace BillApp

/-- Model of `fastapi.HTTPException`: status code and detail message. -/
structure HErr where
  status_code : ℕ
  detail : String
deriving DecidableEq, Repr

/-- Two-decimal rounding, modelling Python `round(x, 2)` on the exact value. -/
def round2 (q : ℚ) : ℚ := ((round (q * 100) : ℤ) : ℚ) / 100

/-- A hexadecimal digit, as accepted by `bson.ObjectId`'s string constructor. -/
def hexDigit (c : Char) : Bool :=
  c.isDigit || ('a' ≤ c && c ≤ 'f') || ('A' ≤ c && c ≤ 'F')

/-- The store's native identity format: `bson.ObjectId(s)` accepts exactly the
24-character hexadecimal strings. -/
def isValidOid (s : String) : Bool :=
  s.data.length == 24 && s.data.all hexDigit

/-- Model of `to_oid` (main.py): wrap `ObjectId(id_str)`, turning a malformed identity
into a 400 "Invalid id" `HTTPException`. -/
def to_oid (id_str : String) : Except HErr String :=
  if isValidOid id_str then .ok id_str else .error ⟨400, "Invalid id"⟩

/-- Model of `MenuItem` (schemas.py). -/
structure MenuItem where
  name : String
  category : String
  price : ℚ
  description : Option String := none
  is_available : Bool := true
  gst_rate : ℚ := 5 / 100
deriving DecidableEq, Repr

/-- Model of `OrderItem` (schemas.py): both the request shape (only `menu_item_id`,
`quantity`, `notes` meaningful) and the persisted snapshot line. -/
structure OrderItem where
  menu_item_id : String
  name : Option String := none
  price : Option ℚ := none
  quantity : ℤ
  notes : Option String := none
  gst_rate : Option ℚ := none
deriving DecidableEq, Repr

/-- A payment document as stored by `add_payment` (the `model_dump()` of
`PaymentIn`). -/
structure PaymentRec where
  method : String
  amount : ℚ
  reference : Option String := none
deriving DecidableEq, Repr

/-- An order document as stored in the `order` collection.  `status` is a bare
string at the document level (the store is schemaless).  `updated_at` encodes
document-field presence: `none` = field absent, `some none` = field present and
holding null (`$set {updated_at: None}` writes `some none`). -/
structure OrderDoc where
  table_no : Option String := none
  customer_id : Option String := none
  status : String := "pending"
  items : List OrderItem
  subtotal : ℚ := 0
  tax_total : ℚ := 0
  grand_total : ℚ := 0
  payments : List PaymentRec := []
  discount : ℚ := 0
  notes : Option String := none
  updated_at : Option (Option String) := none
deriving DecidableEq, Repr

/-- The document store: `menuitem` and `order` collections as association
lists (insertion order preserved, identities generated fresh at insert). -/
structure DB where
  menuitem : List (String × MenuItem)
  order : List (String × OrderDoc)
deriving DecidableEq, Repr

/-- Mongo `find_one({_id: k})`: first document whose identity matches. -/
def findFirst {α : Type} (l : List (String × α)) (k : String) : Option α :=
  match l with
  | [] => none
  | (k', v) :: rest => if k' = k then some v else findFirst rest k

/-- Mongo `update_one({_id: k}, ...)`: rewrite the first matching document
only, leave the rest untouched. -/
def updateFirst {α : Type} (l : List (String × α)) (k : String) (f : α → α) :
    List (String × α) :=
  match l with
  | [] => []
  | (k', v) :: rest =>
    if k' = k then (k', f v) :: rest else (k', v) :: updateFirst rest k f

/-- Predicate for `matched_count` being at least 1 in an `update_one` call keyed on k. -/
def existsKey {α : Type} (l : List (String × α)) (k : String) : Bool :=
  l.any (fun p => p.1 == k)

/-- Modelled from the spec: the `create_document` helper lives in
`database.py`, which is not part of the provided sources; §6 specifies the
order store's "insert-returning-identity" operation.  The document is appended
to the collection under a fresh caller-supplied identity, which is returned. -/
def create_document_order (db : DB) (newId : String) (doc : OrderDoc) :
    DB × String :=
  ({ db with order := db.order ++ [(newId, doc)] }, newId)

/-- Model of `OrderCreate` (main.py). -/
structure OrderCreate where
  table_no : Option String := none
  customer_id : Option String := none
  items : List OrderItem
  discount : ℚ := 0
  notes : Option String := none
deriving DecidableEq, Repr

/-- The totals summary returned by `create_order`. -/
structure Totals where
  subtotal : ℚ
  tax_total : ℚ
  grand_total : ℚ
deriving DecidableEq, Repr

/-- The per-line snapshot built in the `create_order` loop:
`OrderItem(menu_item_id=oi.menu_item_id, name=mi.name, price=unit_price,
quantity=oi.quantity, notes=oi.notes, gst_rate=gst_rate)`. -/
def snapshotLine (oi : OrderItem) (mi : MenuItem) : OrderItem :=
  { menu_item_id := oi.menu_item_id
    name := some mi.name
    price := some mi.price
    quantity := oi.quantity
    notes := oi.notes
    gst_rate := some mi.gst_rate }

/-- The item-expansion loop of `create_order` (main.py lines 113-131): resolve
each line's menu item (400 on malformed identity, 404 on unknown identity),
accumulate `subtotal` and `tax_total`, and build the snapshot lines in input
order. -/
def expandItems (db : DB) : List OrderItem → Except HErr (ℚ × ℚ × List OrderItem)
  | [] => .ok (0, 0, [])
  | oi :: rest =>
    match to_oid oi.menu_item_id with
    | .error e => .error e
    | .ok oid =>
      match findFirst db.menuitem oid with
      | none => .error ⟨404, "Menu item not found"⟩
      | some mi =>
        let unit_price := mi.price
        let line_subtotal := unit_price * (oi.quantity : ℚ)
        let gst_rate := mi.gst_rate
        let line_tax := line_subtotal * gst_rate
        match expandItems db rest with
        | .error e => .error e
        | .ok (subtotal, tax_total, items) =>
          .ok (line_subtotal + subtotal, line_tax + tax_total,
               snapshotLine oi mi :: items)

/-- The `Order(...)` document built by `create_order` (main.py lines 139-150)
from the accumulated `subtotal`/`tax_total` and the expanded lines.  The field
`discount` stores `float(payload.discount or 0)`: Python's `or` replaces a
falsy (zero) discount by `0`. -/
def mkOrderDoc (payload : OrderCreate) (expanded_items : List OrderItem)
    (subtotal tax_total : ℚ) : OrderDoc :=
  let subtotal_after_discount := max 0 (subtotal - payload.discount)
  let tax_ratio := if subtotal = 0 then 0 else tax_total / subtotal
  let tax_total_discounted := subtotal_after_discount * tax_ratio
  let grand_total := subtotal_after_discount + tax_total_discounted
  { table_no := payload.table_no
    customer_id := payload.customer_id
    items := expanded_items
    subtotal := round2 subtotal_after_discount
    tax_total := round2 tax_total_discounted
    grand_total := round2 grand_total
    payments := []
    discount := if payload.discount = 0 then 0 else payload.discount
    status := "pending"
    notes := payload.notes
    updated_at := none }

/-- Model of `create_order` (main.py lines 107-157): expand the requested lines, build
the order document, persist it, and return the new identity plus the rounded
totals summary. -/
def create_order (db : DB) (payload : OrderCreate) (newId : String) :
    Except HErr (DB × String × Totals) :=
  match expandItems db payload.items with
  | .error e => .error e
  | .ok (subtotal, tax_total, expanded_items) =>
    let order_doc := mkOrderDoc payload expanded_items subtotal tax_total
    let res := create_document_order db newId order_doc
    .ok (res.1, res.2,
         ⟨order_doc.subtotal, order_doc.tax_total, order_doc.grand_total⟩)

/-- The order store as left by a `create_order` call: an `HTTPException` aborts
the request before the insert, leaving the store unchanged. -/
def create_order_state (db : DB) (payload : OrderCreate) (newId : String) : DB :=
  match create_order db payload newId with
  | .ok (db', _, _) => db'
  | .error _ => db

/-- The order store as left by a mutation endpoint: an error leaves it
unchanged. -/
def mutation_state (db : DB) : Except HErr DB → DB
  | .ok db' => db'
  | .error _ => db

/-- Model of `OrderStatusUpdate` (main.py): a bare string, with no validation against
the five-value enumeration of `Order.status`. -/
structure OrderStatusUpdate where
  status : String
deriving DecidableEq, Repr

/-- Model of `update_order_status` (main.py lines 170-175): `$set` the status of the
matching order; 404 when no order matches. -/
def update_order_status (db : DB) (order_id : String)
    (payload : OrderStatusUpdate) : Except HErr DB :=
  match to_oid order_id with
  | .error e => .error e
  | .ok oid =>
    if existsKey db.order oid then
      .ok { db with
            order := updateFirst db.order oid
              (fun o => { o with status := payload.status }) }
    else .error ⟨404, "Order not found"⟩

/-- Model of `PaymentIn` (main.py). -/
structure PaymentIn where
  method : String
  amount : ℚ
  reference : Option String := none
deriving DecidableEq, Repr

/-- The document mutation performed by `add_payment`'s `update_one`: `$push`
the dumped payment onto the payments array and `$set` the `updated_at` field
to null. -/
def pushPayment (payment : PaymentIn) (o : OrderDoc) : OrderDoc :=
  { o with
    payments := o.payments ++
      [⟨payment.method, payment.amount, payment.reference⟩],
    updated_at := some none }

/-- Model of `add_payment` (main.py lines 182-190): `$push` the payment onto the
matching order's payment list and `$set` its `updated_at` field to null;
404 when no order matches. -/
def add_payment (db : DB) (order_id : String) (payment : PaymentIn) :
    Except HErr DB :=
  match to_oid order_id with
  | .error e => .error e
  | .ok oid =>
    if existsKey db.order oid then
      .ok { db with order := updateFirst db.order oid (pushPayment payment) }
    else .error ⟨404, "Order not found"⟩

/-- Model of `ReportFilter` (schemas.py): accepted and ignored by `sales_report`. -/
structure ReportFilter where
  date_from : Option String := none
  date_to : Option String := none
deriving DecidableEq, Repr

/-- The sales-report response. -/
structure SalesResp where
  revenue : ℚ
  orders : ℕ
deriving DecidableEq, Repr

/-- Model of `sales_report` (main.py lines 193-201): a single `$group` over the whole
order collection summing `grand_total` and counting documents; the aggregation
yields no row over an empty collection, in which case `{revenue: 0, orders: 0}`
is returned.  The date filters are received and never used. -/
def sales_report (db : DB) (filters : ReportFilter) : SalesResp :=
  if db.order.isEmpty then ⟨0, 0⟩
  else ⟨round2 ((db.order.map (fun p => p.2.grand_total)).sum), db.order.length⟩

/-- Model of `get_order_bill` (main.py lines 204-210): fetch the stored order snapshot;
404 when the identity does not match a stored order. -/
def get_order_bill (db : DB) (order_id : String) : Except HErr OrderDoc :=
  match to_oid order_id with
  | .error e => .error e
  | .ok oid =>
    match findFirst db.order oid with
    | none => .error ⟨404, "Order not found"⟩
    | some o => .ok o

/-- Resolution of one order line against the catalog, as performed inside the
`create_order` loop: `to_oid` then `find_one`; `none` when either step fails. -/
def resolve (db : DB) (oi : OrderItem) : Option MenuItem :=
  match to_oid oi.menu_item_id with
  | .error _ => none
  | .ok oid => findFirst db.menuitem oid

/-- Pointwise resolution of all lines of a request. -/
def resolveAll (db : DB) : List OrderItem → Option (List MenuItem)
  | [] => some []
  | oi :: rest =>
    match resolve db oi, resolveAll db rest with
    | some mi, some mis => some (mi :: mis)
    | _, _ => none

/-- Spec formula for the totals (spec §4.1 steps 4-7), stated from the spec's
words for comparison against `create_order`: clamp the discounted subtotal at
zero, recompute tax proportionally on the discounted base with a zero ratio
when the subtotal is zero, add them for the grand total, and round all three
figures to two decimal places. -/
def specTotals (subtotal tax_total discount : ℚ) : Totals :=
  let subtotal_after_discount := max 0 (subtotal - discount)
  let tax_ratio := if subtotal = 0 then 0 else tax_total / subtotal
  let tax_total_discounted := subtotal_after_discount * tax_ratio
  ⟨round2 subtotal_after_discount, round2 tax_total_discounted,
   round2 (subtotal_after_discount + tax_total_discounted)⟩

/-- Spec formula (§4.1 step 2): `subtotal = Σ line_subtotal` with
`line_subtotal = unit_price × quantity`, over the lines paired with their
resolved catalog items. -/
def specSubtotal (items : List OrderItem) (mis : List MenuItem) : ℚ :=
  (List.zipWith (fun oi mi => mi.price * (oi.quantity : ℚ)) items mis).sum

/-- Spec formula (§4.1 step 2): `tax_total = Σ line_tax` with
`line_tax = line_subtotal × tax_rate`. -/
def specTaxTotal (items : List OrderItem) (mis : List MenuItem) : ℚ :=
  (List.zipWith (fun oi mi => mi.price * (oi.quantity : ℚ) * mi.gst_rate)
    items mis).sum

/-! ### Store lemmas -/

theorem findFirst_updateFirst_self {α : Type} (l : List (String × α)) (k : String)
    (f : α → α) : findFirst (updateFirst l k f) k = (findFirst l k).map f := by
  induction l with
  | nil => rfl
  | cons p rest ih =>
    obtain ⟨k', v⟩ := p
    by_cases h : k' = k <;> simp [updateFirst, findFirst, h, ih]

theorem findFirst_updateFirst_ne {α : Type} (l : List (String × α)) (k k' : String)
    (f : α → α) (h : k' ≠ k) :
    findFirst (updateFirst l k f) k' = findFirst l k' := by
  induction l with
  | nil => rfl
  | cons p rest ih =>
    obtain ⟨k'', v⟩ := p
    by_cases h1 : k'' = k
    · subst h1
      simp [updateFirst, findFirst, Ne.symm h]
    · by_cases h2 : k'' = k' <;> simp [updateFirst, findFirst, h, h1, h2, ih]

theorem existsKey_eq_isSome {α : Type} (l : List (String × α)) (k : String) :
    existsKey l k = (findFirst l k).isSome := by
  induction l with
  | nil => rfl
  | cons p rest ih =>
    obtain ⟨k', v⟩ := p
    by_cases h : k' = k <;> simp [existsKey, findFirst, h, ← ih, existsKey]

theorem round2_zero : round2 0 = 0 := by
  simp [round2]

/-! ### Expansion-loop lemmas -/

theorem to_oid_of_valid {s : String} (h : isValidOid s = true) :
    to_oid s = .ok s := by
  simp [to_oid, h]

theorem resolve_of_valid (db : DB) (oi : OrderItem)
    (h : isValidOid oi.menu_item_id = true) :
    resolve db oi = findFirst db.menuitem oi.menu_item_id := by
  simp [resolve, to_oid_of_valid h]

/-- When every line resolves, the accumulation loop computes exactly the spec
sums and the snapshot lines, in input order. -/
theorem expandItems_of_resolveAll (db : DB) :
    ∀ (items : List OrderItem) (mis : List MenuItem),
      resolveAll db items = some mis →
      expandItems db items =
        .ok (specSubtotal items mis, specTaxTotal items mis,
             List.zipWith snapshotLine items mis) := by
  intro items
  induction items with
  | nil =>
    intro mis h
    simp [resolveAll] at h
    subst h
    simp [expandItems, specSubtotal, specTaxTotal]
  | cons oi rest ih =>
    intro mis h
    simp only [resolveAll] at h
    cases hmi : resolve db oi with
    | none => rw [hmi] at h; cases h
    | some mi =>
      rw [hmi] at h
      cases hmis : resolveAll db rest with
      | none => rw [hmis] at h; cases h
      | some mis' =>
        rw [hmis] at h
        simp only [Option.some.injEq] at h
        subst h
        have hrest := ih mis' hmis
        unfold resolve at hmi
        cases hoid : to_oid oi.menu_item_id with
        | error e => rw [hoid] at hmi; cases hmi
        | ok oid =>
          simp only [hoid] at hmi
          simp only [expandItems, hoid, hmi, hrest]
          simp [specSubtotal, specTaxTotal]

/-- When every line's identity is well-formed but some line's menu item is not
stored, the loop aborts with the 404 "Menu item not found" failure. -/
theorem expandItems_notFound (db : DB) :
    ∀ (items : List OrderItem),
      (∀ oi ∈ items, isValidOid oi.menu_item_id = true) →
      (∃ oi ∈ items, findFirst db.menuitem oi.menu_item_id = none) →
      expandItems db items = .error ⟨404, "Menu item not found"⟩ := by
  intro items
  induction items with
  | nil =>
    intro _ hmiss
    simp at hmiss
  | cons oi rest ih =>
    intro hvalid hmiss
    have hv : isValidOid oi.menu_item_id = true := hvalid oi (by simp)
    simp only [expandItems, to_oid_of_valid hv]
    cases hfind : findFirst db.menuitem oi.menu_item_id with
    | none => rfl
    | some mi =>
      have hmiss' : ∃ oj ∈ rest, findFirst db.menuitem oj.menu_item_id = none := by
        obtain ⟨oj, hoj, hnone⟩ := hmiss
        rcases List.mem_cons.mp hoj with rfl | hoj'
        · rw [hfind] at hnone; cases hnone
        · exact ⟨oj, hoj', hnone⟩
      have hrest := ih (fun oj hj => hvalid oj (List.mem_cons_of_mem _ hj)) hmiss'
      rw [hrest]

/-- A malformed identity aborts the loop with the 400 "Invalid id" failure,
provided every earlier line resolves. -/
theorem expandItems_invalid (db : DB) (s : String) (hs : isValidOid s = false) :
    ∀ (pre : List OrderItem) (oi : OrderItem) (rest : List OrderItem),
      oi.menu_item_id = s →
      (∀ oj ∈ pre, (resolve db oj).isSome) →
      expandItems db (pre ++ oi :: rest) = .error ⟨400, "Invalid id"⟩ := by
  intro pre
  induction pre with
  | nil =>
    intro oi rest hid _
    simp only [List.nil_append, expandItems, to_oid, hid, hs]
    rfl
  | cons oj pre' ih =>
    intro oi rest hid hres
    have hj : (resolve db oj).isSome := hres oj (by simp)
    cases hmi : resolve db oj with
    | none => rw [hmi] at hj; cases hj
    | some mi =>
      unfold resolve at hmi
      cases hoid : to_oid oj.menu_item_id with
      | error e => rw [hoid] at hmi; cases hmi
      | ok oid =>
        simp only [hoid] at hmi
        have hrest := ih oi rest hid
          (fun ok' hk => hres ok' (List.mem_cons_of_mem _ hk))
        simp only [List.cons_append, expandItems, hoid, hmi, List.append_eq, hrest]

/-! ### Concrete fixtures -/

/-- An empty store. -/
def dbEmpty : DB := { menuitem := [], order := [] }

/-- Catalog identity of the example item (a well-formed ObjectId string). -/
def wMenuId : String := "0123456789abcdef01234567"

/-- The spec's example catalog item: price 100, GST rate 0.05. -/
def wMenu : MenuItem :=
  { name := "A", category := "Mains", price := 100, gst_rate := 5 / 100 }

/-- Store holding exactly the example catalog item. -/
def wDb : DB := { menuitem := [(wMenuId, wMenu)], order := [] }

/-- Example line request: the example item, quantity 2. -/
def wReq : OrderItem := { menu_item_id := wMenuId, quantity := 2 }

/-- Example creation payload: one line, discount 50. -/
def wPayload : OrderCreate := { items := [wReq], discount := 50 }

/-- A fresh order identity for inserts. -/
def wOrderId : String := "111111111111111111111111"

/-! ### Claims -/

/-- Claim C1: for every order-creation request whose line requests all resolve
to stored catalog items, the returned and persisted totals satisfy the spec
formula (subtotal and tax summed per line, discount clamped at zero,
tax recomputed proportionally on the discounted base, grand total their sum,
all three stored/returned figures rounded to two decimal places). -/
theorem C1_create_order_totals (db : DB) (payload : OrderCreate) (newId : String)
    (mis : List MenuItem) (h : resolveAll db payload.items = some mis) :
    ∃ doc : OrderDoc,
      create_order db payload newId =
        .ok ({ db with order := db.order ++ [(newId, doc)] }, newId,
             ⟨doc.subtotal, doc.tax_total, doc.grand_total⟩) ∧
      Totals.mk doc.subtotal doc.tax_total doc.grand_total =
        specTotals (specSubtotal payload.items mis)
          (specTaxTotal payload.items mis) payload.discount := by
  have hexp := expandItems_of_resolveAll db payload.items mis h
  refine ⟨mkOrderDoc payload (List.zipWith snapshotLine payload.items mis)
    (specSubtotal payload.items mis) (specTaxTotal payload.items mis), ?_, ?_⟩
  · simp [create_order, hexp, create_document_order]
  · rfl

/-- Witness for C1 at the spec's concrete example: item price 100,
gst_rate 0.05, quantity 2, discount 50 yields subtotal 150, tax_total 7.5
and grand_total 157.5. -/
theorem C1_create_order_totals_witness :
    resolveAll wDb wPayload.items = some [wMenu] ∧
    (∃ doc : OrderDoc,
      create_order wDb wPayload wOrderId =
        .ok ({ wDb with order := wDb.order ++ [(wOrderId, doc)] }, wOrderId,
             ⟨doc.subtotal, doc.tax_total, doc.grand_total⟩) ∧
      Totals.mk doc.subtotal doc.tax_total doc.grand_total =
        specTotals (specSubtotal wPayload.items [wMenu])
          (specTaxTotal wPayload.items [wMenu]) wPayload.discount) ∧
    specTotals (specSubtotal wPayload.items [wMenu])
        (specTaxTotal wPayload.items [wMenu]) wPayload.discount =
      ⟨150, 75 / 10, 1575 / 10⟩ :=
  ⟨rfl, C1_create_order_totals wDb wPayload wOrderId [wMenu] rfl, by
    norm_num [specTotals, specSubtotal, specTaxTotal, wPayload, wReq, wMenu,
      round2, round_eq]⟩

/-- Claim C2: when some line's (well-formed) catalog identity is not stored,
order creation fails whole with the 404 "Menu item not found" error and the
store is unchanged: no partial order is persisted. -/
theorem C2_unknown_item_all_or_nothing (db : DB) (payload : OrderCreate)
    (newId : String)
    (hvalid : ∀ oi ∈ payload.items, isValidOid oi.menu_item_id = true)
    (hmiss : ∃ oi ∈ payload.items, findFirst db.menuitem oi.menu_item_id = none) :
    create_order db payload newId = .error ⟨404, "Menu item not found"⟩ ∧
    create_order_state db payload newId = db := by
  have h := expandItems_notFound db payload.items hvalid hmiss
  refine ⟨?_, ?_⟩ <;> simp [create_order_state, create_order, h]

/-- Witness for C2: the example request against an empty catalog. -/
theorem C2_unknown_item_all_or_nothing_witness :
    (∀ oi ∈ wPayload.items, isValidOid oi.menu_item_id = true) ∧
    (∃ oi ∈ wPayload.items, findFirst dbEmpty.menuitem oi.menu_item_id = none) ∧
    (create_order dbEmpty wPayload wOrderId = .error ⟨404, "Menu item not found"⟩ ∧
     create_order_state dbEmpty wPayload wOrderId = dbEmpty) :=
  ⟨by decide, ⟨wReq, by simp [wPayload], rfl⟩,
   C2_unknown_item_all_or_nothing dbEmpty wPayload wOrderId (by decide)
     ⟨wReq, by simp [wPayload], rfl⟩⟩

/-- Empty-items payload with a negative discount (accepted: `OrderCreate`
declares no bound on `discount`). -/
def c3Payload : OrderCreate := { items := [], discount := -10 }

/-- A fresh order identity for the C3 insert. -/
def c3Id : String := "333333333333333333333333"

/-- Counterexample to claim C3 as stated: an order-creation request with an
empty items list but discount -10 succeeds with subtotal 10 and
grand_total 10, not 0 (the clamp `max(0, 0 - (-10))` yields 10). -/
theorem C3_counterexample :
    c3Payload.items = [] ∧
    create_order dbEmpty c3Payload c3Id =
      .ok ({ dbEmpty with order := [(c3Id,
            { items := [], subtotal := 10, tax_total := 0, grand_total := 10,
              discount := -10 })] }, c3Id, ⟨10, 0, 10⟩) ∧
    (10 : ℚ) ≠ 0 := by
  refine ⟨rfl, ?_, by norm_num⟩
  have hmax : max (0 : ℚ) (0 - (-10)) = 10 := by norm_num [max_def]
  have h10 : round2 10 = 10 := by norm_num [round2, round_eq]
  have hne : (-10 : ℚ) ≠ 0 := by norm_num
  simp [create_order, expandItems, create_document_order, dbEmpty, c3Payload,
        mkOrderDoc, hmax, h10, hne, round2_zero]

/-- Claim C3 as amended: creation on an empty items list always succeeds, and
when the discount is non-negative the returned and stored totals are all 0
(the zero-subtotal branch avoiding the division by zero); a negative discount
instead yields totals of minus the discount. -/
theorem C3_empty_items (db : DB) (payload : OrderCreate) (newId : String)
    (hempty : payload.items = []) :
    create_order db payload newId =
      .ok ({ db with order := db.order ++ [(newId, mkOrderDoc payload [] 0 0)] },
           newId,
           ⟨(mkOrderDoc payload [] 0 0).subtotal,
            (mkOrderDoc payload [] 0 0).tax_total,
            (mkOrderDoc payload [] 0 0).grand_total⟩) ∧
    (0 ≤ payload.discount →
      (mkOrderDoc payload [] 0 0).subtotal = 0 ∧
      (mkOrderDoc payload [] 0 0).tax_total = 0 ∧
      (mkOrderDoc payload [] 0 0).grand_total = 0) := by
  constructor
  · simp [create_order, hempty, expandItems, create_document_order]
  · intro hd
    have hmax : max (0 : ℚ) (-payload.discount) = 0 :=
      max_eq_left (by linarith)
    simp [mkOrderDoc, zero_sub, hmax, round2_zero]

/-- Witness for C3 (amended) at the default discount 0 and empty store. -/
theorem C3_empty_items_witness :
    ({ items := [] } : OrderCreate).items = [] ∧
    (0 : ℚ) ≤ ({ items := [] } : OrderCreate).discount ∧
    (create_order dbEmpty { items := [] } c3Id =
      .ok ({ dbEmpty with
             order := dbEmpty.order ++
               [(c3Id, mkOrderDoc { items := [] } [] 0 0)] }, c3Id,
           ⟨(mkOrderDoc { items := [] } [] 0 0).subtotal,
            (mkOrderDoc { items := [] } [] 0 0).tax_total,
            (mkOrderDoc { items := [] } [] 0 0).grand_total⟩)) ∧
    (mkOrderDoc ({ items := [] } : OrderCreate) [] 0 0).grand_total = 0 :=
  ⟨rfl, le_refl 0,
   (C3_empty_items dbEmpty { items := [] } c3Id rfl).1,
   ((C3_empty_items dbEmpty { items := [] } c3Id rfl).2 (le_refl 0)).2.2⟩

/-- Identity of the stored order used for the C4 failing input. -/
def c4Id : String := "444444444444444444444444"

/-- A stored order (fresh from creation, status "pending"). -/
def c4Order : OrderDoc := { items := [] }

/-- Store holding exactly that order. -/
def c4Db : DB := { menuitem := [], order := [(c4Id, c4Order)] }

/-- Claim C4 is violated by the code (code bug): `OrderStatusUpdate.status` is
a bare string with no validation against the five-value enumeration declared
for `Order.status` in schemas.py, so a successful status update can store a
value outside the enumeration: updating the example order's status to "bogus"
succeeds and persists "bogus". -/
theorem C4_status_escapes_enumeration :
    ∃ db', update_order_status c4Db c4Id ⟨"bogus"⟩ = .ok db' ∧
      findFirst db'.order c4Id = some { c4Order with status := "bogus" } ∧
      "bogus" ∉ ["pending", "preparing", "ready", "served", "cancelled"] :=
  ⟨{ c4Db with order := [(c4Id, { c4Order with status := "bogus" })] },
   rfl, rfl, by decide⟩

/-- Claim C5: the sales report returns zero revenue and zero orders over an
empty order store; otherwise revenue is the 2-decimal rounding of the sum of
all stored grand totals and orders is the stored-order count; every stored
order contributes regardless of its status (the result depends only on the
stored grand totals), and the supplied date-range filter is ignored. -/
theorem C5_sales_report (db : DB) (f : ReportFilter) :
    sales_report db f =
      ⟨round2 ((db.order.map (fun p => p.2.grand_total)).sum), db.order.length⟩ ∧
    (∀ (ms : List (String × MenuItem)) (g : ReportFilter),
      sales_report ⟨ms, []⟩ g = ⟨0, 0⟩) ∧
    (∀ (db' : DB) (g g' : ReportFilter),
      db'.order.map (fun p => p.2.grand_total) =
        db.order.map (fun p => p.2.grand_total) →
      sales_report db' g = sales_report db g') := by
  refine ⟨?_, ?_, ?_⟩
  · cases hdb : db.order with
    | nil => simp [sales_report, hdb, round2_zero]
    | cons p rest => simp [sales_report, hdb]
  · intro ms g
    simp [sales_report, round2_zero]
  · intro db' g g' h
    have hlen : db'.order.length = db.order.length := by
      simpa using congrArg List.length h
    cases hdb : db.order with
    | nil =>
      rw [hdb] at h
      simp only [List.map_nil, List.map_eq_nil_iff] at h
      simp [sales_report, hdb, h]
    | cons p rest =>
      rw [hdb] at h hlen
      cases hdb' : db'.order with
      | nil => rw [hdb'] at h; simp at h
      | cons q rest' =>
        rw [hdb'] at h hlen
        simp only [sales_report, hdb, hdb', List.isEmpty_cons]
        rw [h, hlen]

/-- Witness for C5: the report over the empty store is zero revenue, zero
orders. -/
theorem C5_sales_report_witness :
    sales_report dbEmpty ⟨none, none⟩ = ⟨0, 0⟩ :=
  (C5_sales_report dbEmpty ⟨none, none⟩).2.1 [] ⟨none, none⟩

/-- Identity of the stored order used for the C6 witness. -/
def c6Id : String := "666666666666666666666666"

/-- A stored order with an empty payments list. -/
def c6Order : OrderDoc := { items := [] }

/-- Store holding exactly that order. -/
def c6Db : DB := { menuitem := [], order := [(c6Id, c6Order)] }

/-- A payment payload. -/
def c6Pay : PaymentIn := { method := "cash", amount := 50 }

/-- Claim C6: on a well-formed order identity that is not stored, payment
recording fails 404 and changes nothing; on a stored order, exactly one
payment entry is appended per call (length grows by exactly 1, existing
entries are preserved, other orders untouched), and a second identical call
appends a second duplicate entry. -/
theorem C6_add_payment (db : DB) (oid : String) (p : PaymentIn)
    (h1 : isValidOid oid = true) :
    (findFirst db.order oid = none →
      add_payment db oid p = .error ⟨404, "Order not found"⟩ ∧
      mutation_state db (add_payment db oid p) = db) ∧
    (∀ o, findFirst db.order oid = some o →
      ∃ db', add_payment db oid p = .ok db' ∧
        findFirst db'.order oid =
          some { o with
                 payments := o.payments ++ [⟨p.method, p.amount, p.reference⟩],
                 updated_at := some none } ∧
        (o.payments ++ [(⟨p.method, p.amount, p.reference⟩ : PaymentRec)]).length =
          o.payments.length + 1 ∧
        (∀ k, k ≠ oid → findFirst db'.order k = findFirst db.order k) ∧
        ∃ db'', add_payment db' oid p = .ok db'' ∧
          findFirst db''.order oid =
            some { o with
                   payments := o.payments ++
                     [⟨p.method, p.amount, p.reference⟩,
                      ⟨p.method, p.amount, p.reference⟩],
                   updated_at := some none }) := by
  have hto := to_oid_of_valid h1
  constructor
  · intro h2
    have hex : existsKey db.order oid = false := by
      rw [existsKey_eq_isSome, h2]; rfl
    constructor <;> simp [add_payment, mutation_state, hto, hex]
  · intro o h2
    have hex : existsKey db.order oid = true := by
      rw [existsKey_eq_isSome, h2]; rfl
    have h2' : findFirst (updateFirst db.order oid (pushPayment p)) oid =
        some (pushPayment p o) := by
      rw [findFirst_updateFirst_self, h2]; rfl
    have hok : add_payment db oid p =
        .ok { db with order := updateFirst db.order oid (pushPayment p) } := by
      simp [add_payment, hto, hex]
    have hex' : existsKey (updateFirst db.order oid (pushPayment p)) oid =
        true := by
      rw [existsKey_eq_isSome, h2']; rfl
    have hok2 : add_payment
        { db with order := updateFirst db.order oid (pushPayment p) } oid p =
        .ok { db with order := updateFirst (updateFirst db.order oid (pushPayment p)) oid (pushPayment p) } := by
      simp [add_payment, hto, hex']
    refine ⟨_, hok, h2', by simp, ?_, _, hok2, ?_⟩
    · intro k hk
      exact findFirst_updateFirst_ne _ _ _ _ hk
    · rw [findFirst_updateFirst_self, h2']
      simp [pushPayment]

/-- Witness for C6: one payment call on the example order appends exactly that
payment. -/
theorem C6_add_payment_witness :
    isValidOid c6Id = true ∧
    findFirst c6Db.order c6Id = some c6Order ∧
    ∃ db', add_payment c6Db c6Id c6Pay = .ok db' ∧
      findFirst db'.order c6Id =
        some { c6Order with
               payments := [⟨"cash", 50, none⟩],
               updated_at := some none } := by
  refine ⟨by decide, rfl, ?_⟩
  obtain ⟨db', hok, hfind, -, -, -⟩ :=
    (C6_add_payment c6Db c6Id c6Pay (by decide)).2 c6Order rfl
  exact ⟨db', hok, by simpa [c6Order, c6Pay] using hfind⟩

/-- A malformed identity string (not 24 hex characters). -/
def c7BadId : String := "zzz"

/-- A line referencing a well-formed identity that is not in the catalog. -/
def c7Missing : OrderItem :=
  { menu_item_id := "aaaaaaaaaaaaaaaaaaaaaaaa", quantity := 1 }

/-- A line referencing the malformed identity. -/
def c7BadItem : OrderItem := { menu_item_id := c7BadId, quantity := 1 }

/-- Creation payload whose first line 404s before the malformed second line is
ever parsed. -/
def c7Payload : OrderCreate := { items := [c7Missing, c7BadItem] }

/-- Counterexample to claim C7 as stated: an order-creation request containing
a malformed catalog identity does not necessarily fail with the 400 invalid-id
error — when an earlier line's well-formed identity fails to resolve first,
the operation fails with the 404 not-found error instead. -/
theorem C7_counterexample :
    isValidOid c7BadId = false ∧
    c7BadItem ∈ c7Payload.items ∧
    create_order dbEmpty c7Payload wOrderId = .error ⟨404, "Menu item not found"⟩ ∧
    (⟨404, "Menu item not found"⟩ : HErr) ≠ ⟨400, "Invalid id"⟩ :=
  ⟨by decide, by decide, rfl, by decide⟩

/-- Claim C7 as amended: a malformed identity string makes status update,
payment recording and bill retrieval fail with the 400 "Invalid id" failure —
distinct from the 404 not-found failures — independently of the store contents
(so before any lookup of that identity) and with no state change; order
creation likewise fails with the 400 failure provided every line preceding the
malformed one resolves (an earlier line's not-found error may preempt it). -/
theorem C7_invalid_id (s : String) (hs : isValidOid s = false) :
    (∀ (db : DB) (payload : OrderStatusUpdate),
       update_order_status db s payload = .error ⟨400, "Invalid id"⟩ ∧
       mutation_state db (update_order_status db s payload) = db) ∧
    (∀ (db : DB) (p : PaymentIn),
       add_payment db s p = .error ⟨400, "Invalid id"⟩ ∧
       mutation_state db (add_payment db s p) = db) ∧
    (∀ db : DB, get_order_bill db s = .error ⟨400, "Invalid id"⟩) ∧
    (∀ (db : DB) (payload : OrderCreate) (newId : String)
       (pre : List OrderItem) (oi : OrderItem) (rest : List OrderItem),
       payload.items = pre ++ oi :: rest →
       oi.menu_item_id = s →
       (∀ oj ∈ pre, (resolve db oj).isSome) →
       create_order db payload newId = .error ⟨400, "Invalid id"⟩ ∧
       create_order_state db payload newId = db) ∧
    (⟨400, "Invalid id"⟩ : HErr) ≠ ⟨404, "Order not found"⟩ ∧
    (⟨400, "Invalid id"⟩ : HErr) ≠ ⟨404, "Menu item not found"⟩ := by
  have hto : to_oid s = .error ⟨400, "Invalid id"⟩ := by simp [to_oid, hs]
  refine ⟨?_, ?_, ?_, ?_, by decide, by decide⟩
  · intro db payload
    constructor <;> simp [update_order_status, mutation_state, hto]
  · intro db p
    constructor <;> simp [add_payment, mutation_state, hto]
  · intro db
    simp [get_order_bill, hto]
  · intro db payload newId pre oi rest hitems hid hres
    have h := expandItems_invalid db s hs pre oi rest hid hres
    constructor <;> simp [create_order, create_order_state, hitems, h]

/-- Witness for C7 (amended) at the malformed identity "zzz". -/
theorem C7_invalid_id_witness :
    isValidOid "zzz" = false ∧
    update_order_status dbEmpty "zzz" ⟨"ready"⟩ = .error ⟨400, "Invalid id"⟩ :=
  ⟨by decide, ((C7_invalid_id "zzz" (by decide)).1 dbEmpty ⟨"ready"⟩).1⟩

/-- Claim C8: every successfully created order is persisted with status
exactly "pending" and an empty payments list; each persisted line is the
creation-time snapshot of the resolved catalog item (name, unit price,
gst_rate) together with the request's identity, quantity and note; and the
two mutation operations (status update, payment recording) never touch the
line snapshots of any stored order. -/
theorem C8_snapshot (db : DB) (payload : OrderCreate) (newId : String)
    (mis : List MenuItem) (h : resolveAll db payload.items = some mis) :
    (∃ doc : OrderDoc,
      create_order db payload newId =
        .ok ({ db with order := db.order ++ [(newId, doc)] }, newId,
             ⟨doc.subtotal, doc.tax_total, doc.grand_total⟩) ∧
      doc.status = "pending" ∧ doc.payments = [] ∧
      doc.items = List.zipWith snapshotLine payload.items mis) ∧
    (∀ oi mi, (snapshotLine oi mi).menu_item_id = oi.menu_item_id ∧
      (snapshotLine oi mi).name = some mi.name ∧
      (snapshotLine oi mi).price = some mi.price ∧
      (snapshotLine oi mi).gst_rate = some mi.gst_rate ∧
      (snapshotLine oi mi).quantity = oi.quantity ∧
      (snapshotLine oi mi).notes = oi.notes) ∧
    (∀ (dbX : DB) (sid : String) (st : OrderStatusUpdate) (dbY : DB),
      update_order_status dbX sid st = .ok dbY →
      ∀ k, (findFirst dbY.order k).map OrderDoc.items =
        (findFirst dbX.order k).map OrderDoc.items) ∧
    (∀ (dbX : DB) (sid : String) (p : PaymentIn) (dbY : DB),
      add_payment dbX sid p = .ok dbY →
      ∀ k, (findFirst dbY.order k).map OrderDoc.items =
        (findFirst dbX.order k).map OrderDoc.items) := by
  have hexp := expandItems_of_resolveAll db payload.items mis h
  refine ⟨⟨mkOrderDoc payload (List.zipWith snapshotLine payload.items mis)
      (specSubtotal payload.items mis) (specTaxTotal payload.items mis),
      ?_, rfl, rfl, rfl⟩, fun oi mi => ⟨rfl, rfl, rfl, rfl, rfl, rfl⟩, ?_, ?_⟩
  · simp [create_order, hexp, create_document_order]
  · intro dbX sid st dbY hok k
    unfold update_order_status at hok
    cases hto : to_oid sid with
    | error e => rw [hto] at hok; cases hok
    | ok oid =>
      rw [hto] at hok
      cases hex : existsKey dbX.order oid with
      | false => simp [hex] at hok
      | true =>
        simp only [hex, if_true] at hok
        obtain ⟨rfl⟩ : { dbX with order := updateFirst dbX.order oid (fun o => { o with status := st.status }) } = dbY := by
          cases hok; rfl
        by_cases hk : k = oid
        · subst hk
          rw [findFirst_updateFirst_self]
          cases findFirst dbX.order k <;> rfl
        · rw [findFirst_updateFirst_ne _ _ _ _ hk]
  · intro dbX sid p dbY hok k
    unfold add_payment at hok
    cases hto : to_oid sid with
    | error e => rw [hto] at hok; cases hok
    | ok oid =>
      rw [hto] at hok
      cases hex : existsKey dbX.order oid with
      | false => simp [hex] at hok
      | true =>
        simp only [hex, if_true] at hok
        obtain ⟨rfl⟩ : { dbX with order := updateFirst dbX.order oid (pushPayment p) } = dbY := by
          cases hok; rfl
        by_cases hk : k = oid
        · subst hk
          rw [findFirst_updateFirst_self]
          cases findFirst dbX.order k <;> rfl
        · rw [findFirst_updateFirst_ne _ _ _ _ hk]

/-- Witness for C8: the example creation persists status "pending", empty
payments, and the snapshot of the example catalog item. -/
theorem C8_snapshot_witness :
    resolveAll wDb wPayload.items = some [wMenu] ∧
    ∃ doc : OrderDoc,
      create_order wDb wPayload wOrderId =
        .ok ({ wDb with order := wDb.order ++ [(wOrderId, doc)] }, wOrderId,
             ⟨doc.subtotal, doc.tax_total, doc.grand_total⟩) ∧
      doc.status = "pending" ∧ doc.payments = [] ∧
      doc.items = List.zipWith snapshotLine wPayload.items [wMenu] :=
  ⟨rfl, (C8_snapshot wDb wPayload wOrderId [wMenu] rfl).1⟩

/-- Claim C9: a status update on a well-formed identity that is not stored
fails 404 and changes nothing; on a stored order it overwrites the status
field to exactly the supplied value, leaving every other field of that order
and every other stored order unchanged. -/
theorem C9_status_update (db : DB) (oid : String) (st : OrderStatusUpdate)
    (h1 : isValidOid oid = true) :
    (findFirst db.order oid = none →
      update_order_status db oid st = .error ⟨404, "Order not found"⟩ ∧
      mutation_state db (update_order_status db oid st) = db) ∧
    (∀ o, findFirst db.order oid = some o →
      ∃ db', update_order_status db oid st = .ok db' ∧
        findFirst db'.order oid = some { o with status := st.status } ∧
        (∀ k, k ≠ oid → findFirst db'.order k = findFirst db.order k)) := by
  have hto := to_oid_of_valid h1
  constructor
  · intro h2
    have hex : existsKey db.order oid = false := by
      rw [existsKey_eq_isSome, h2]; rfl
    constructor <;> simp [update_order_status, mutation_state, hto, hex]
  · intro o h2
    have hex : existsKey db.order oid = true := by
      rw [existsKey_eq_isSome, h2]; rfl
    have hok : update_order_status db oid st =
        .ok { db with order := updateFirst db.order oid (fun o => { o with status := st.status }) } := by
      simp [update_order_status, hto, hex]
    refine ⟨_, hok, ?_, ?_⟩
    · rw [findFirst_updateFirst_self, h2]; rfl
    · intro k hk
      exact findFirst_updateFirst_ne _ _ _ _ hk

/-- Identity of the stored order used for the C9 witness. -/
def c9Id : String := "999999999999999999999999"

/-- A stored order (status "pending"). -/
def c9Order : OrderDoc := { items := [] }

/-- Store holding exactly that order. -/
def c9Db : DB := { menuitem := [], order := [(c9Id, c9Order)] }

/-- Witness for C9: updating the example order's status to "served" stores
exactly "served" and changes nothing else. -/
theorem C9_status_update_witness :
    isValidOid c9Id = true ∧
    findFirst c9Db.order c9Id = some c9Order ∧
    ∃ db', update_order_status c9Db c9Id ⟨"served"⟩ = .ok db' ∧
      findFirst db'.order c9Id = some { c9Order with status := "served" } := by
  refine ⟨by decide, rfl, ?_⟩
  obtain ⟨db', hok, hfind, -⟩ :=
    (C9_status_update c9Db c9Id ⟨"served"⟩ (by decide)).2 c9Order rfl
  exact ⟨db', hok, hfind⟩

/-- Claim C10: every successful payment-recording call, besides appending one
payment entry, also writes the order's `updated_at` field, setting it to null
(`some none` in the presence encoding: field present, value null) — a second
field mutation beyond the array append; at creation the field is absent. -/
theorem C10_payment_writes_updated_at (db : DB) (oid : String) (p : PaymentIn)
    (o : OrderDoc) (h1 : isValidOid oid = true)
    (h2 : findFirst db.order oid = some o) :
    (∃ db', add_payment db oid p = .ok db' ∧
      (findFirst db'.order oid).map OrderDoc.updated_at = some (some none) ∧
      (findFirst db'.order oid).map OrderDoc.payments =
        some (o.payments ++ [⟨p.method, p.amount, p.reference⟩])) ∧
    (∀ (payload : OrderCreate) (expanded : List OrderItem) (s t : ℚ),
      (mkOrderDoc payload expanded s t).updated_at = none) := by
  have hto := to_oid_of_valid h1
  have hex : existsKey db.order oid = true := by
    rw [existsKey_eq_isSome, h2]; rfl
  have hok : add_payment db oid p =
      .ok { db with order := updateFirst db.order oid (pushPayment p) } := by
    simp [add_payment, hto, hex]
  have h2' : findFirst (updateFirst db.order oid (pushPayment p)) oid =
      some (pushPayment p o) := by
    rw [findFirst_updateFirst_self, h2]; rfl
  exact ⟨⟨_, hok, by rw [h2']; rfl, by rw [h2']; rfl⟩,
    fun payload expanded s t => rfl⟩

/-- Identity of the stored order used for the C10 witness. -/
def c10Id : String := "101010101010101010101010"

/-- A stored order whose `updated_at` field is absent. -/
def c10Order : OrderDoc := { items := [] }

/-- Store holding exactly that order. -/
def c10Db : DB := { menuitem := [], order := [(c10Id, c10Order)] }

/-- Witness for C10: recording a payment on the example order sets its
`updated_at` field to null. -/
theorem C10_payment_writes_updated_at_witness :
    isValidOid c10Id = true ∧
    findFirst c10Db.order c10Id = some c10Order ∧
    c10Order.updated_at = none ∧
    ∃ db', add_payment c10Db c10Id c6Pay = .ok db' ∧
      (findFirst db'.order c10Id).map OrderDoc.updated_at = some (some none) := by
  refine ⟨by decide, rfl, rfl, ?_⟩
  obtain ⟨⟨db', hok, hupd, -⟩, -⟩ :=
    C10_payment_writes_updated_at c10Db c10Id c6Pay c10Order (by decide) rfl
  exact ⟨db', hok, hupd⟩

end BillApp
